import Mathlib

/-!
Verification of the data layer of a realworld-style blogging backend
(actix-web + diesel).  Rust strings are embedded as lists of Unicode code
points (`List Nat`), UUIDs and timestamps as `Nat`, database tables as lists
of row structures, and fallible Rust control flow as an `Outcome` type that
distinguishes recoverable `Result::Err` values (propagated with `?`) from
process aborts (`expect` / `unwrap` panics).
-/

namespace RealWorld

/-- Embeds a string literal as its list of Unicode code points. -/
def str (s : String) : List Nat := s.data.map Char.toNat

/-! ## Slug derivation

Modelled from the spec: `Article::convert_title_to_slug` lives in the article
model, which is not under `src/` (only its caller `app/article/api.rs` is).
Spec: "lower-cased, non-alphanumeric runs replaced by a single separator",
"no leading/trailing separator".  Character classes are ASCII. -/

/-- ASCII digit code. -/
def isAsciiDigit (n : Nat) : Bool := 48 ≤ n && n ≤ 57

/-- ASCII upper-case letter code. -/
def isAsciiUpper (n : Nat) : Bool := 65 ≤ n && n ≤ 90

/-- ASCII lower-case letter code. -/
def isAsciiLower (n : Nat) : Bool := 97 ≤ n && n ≤ 122

/-- ASCII alphanumeric code. -/
def isAlnumCode (n : Nat) : Bool := isAsciiDigit n || isAsciiUpper n || isAsciiLower n

/-- ASCII lower-casing on code points. -/
def toLowerCode (n : Nat) : Nat := if isAsciiUpper n then n + 32 else n

/-- The slug separator, code point of the dash. -/
def sep : Nat := 45

/-- One character of slug normalisation: alphanumerics are lower-cased,
everything else becomes the separator. -/
def slugMapChar (n : Nat) : Nat := if isAlnumCode n then toLowerCode n else sep

/-- Collapses every run of separators to a single separator. -/
def collapseSeps : List Nat → List Nat
  | [] => []
  | [a] => [a]
  | a :: b :: rest =>
    if a == sep && b == sep then collapseSeps (b :: rest)
    else a :: collapseSeps (b :: rest)

/-- Removes leading separators. -/
def trimLeft : List Nat → List Nat
  | [] => []
  | a :: rest => if a == sep then trimLeft rest else a :: rest

/-- Removes trailing separators. -/
def trimRight : List Nat → List Nat
  | [] => []
  | a :: rest =>
    match trimRight rest with
    | [] => if a == sep then [] else [a]
    | b :: t => a :: b :: t

/-- Modelled from the spec: `Article::convert_title_to_slug` (article model
not under `src/`).  Lower-cases, collapses each non-alphanumeric run to a
single separator, and strips leading and trailing separators. -/
def convert_title_to_slug (title : List Nat) : List Nat :=
  trimRight (trimLeft (collapseSeps (title.map slugMapChar)))

/-- No two adjacent separators. -/
def noDoubleSep : List Nat → Bool
  | a :: b :: rest => !(a == sep && b == sep) && noDoubleSep (b :: rest)
  | _ => true

/-- Characters that slug normalisation can emit. -/
def IsSlugOut (n : Nat) : Prop :=
  (48 ≤ n ∧ n ≤ 57) ∨ (97 ≤ n ∧ n ≤ 122) ∨ n = 45

example : convert_title_to_slug (str ("Hello, World!")) = str ("hello-world") := by decide

example : convert_title_to_slug (str ("  --Rust__and  Lean-- ")) = str ("rust-and-lean") := by
  decide

theorem slugMapChar_isSlugOut (n : Nat) : IsSlugOut (slugMapChar n) := by
  simp only [slugMapChar, toLowerCode, isAlnumCode, isAsciiDigit, isAsciiUpper, isAsciiLower,
    IsSlugOut, sep]
  split_ifs with h1 h2
  · simp only [Bool.or_eq_true, Bool.and_eq_true, decide_eq_true_eq] at h1 h2
    omega
  · simp only [Bool.or_eq_true, Bool.and_eq_true, decide_eq_true_eq] at h1 h2
    omega
  · omega

theorem slugMapChar_fixed (n : Nat) (h : IsSlugOut n) : slugMapChar n = n := by
  simp only [IsSlugOut] at h
  simp only [slugMapChar, toLowerCode, isAlnumCode, isAsciiDigit, isAsciiUpper, isAsciiLower, sep]
  split_ifs with h1 h2
  · exfalso
    simp only [Bool.or_eq_true, Bool.and_eq_true, decide_eq_true_eq] at h1 h2
    omega
  · rfl
  · simp only [Bool.or_eq_true, Bool.and_eq_true, decide_eq_true_eq] at h1
    omega

theorem map_slugMapChar_fixed : ∀ l : List Nat, (∀ n ∈ l, IsSlugOut n) → l.map slugMapChar = l
  | [], _ => rfl
  | a :: rest, h => by
    simp only [List.map_cons]
    rw [slugMapChar_fixed a (h a (List.mem_cons_self a rest)),
      map_slugMapChar_fixed rest (fun n hn => h n (List.mem_cons_of_mem a hn))]

theorem collapseSeps_cons : ∀ (a : Nat) (rest : List Nat), ∃ t, collapseSeps (a :: rest) = a :: t
  | _, [] => ⟨[], rfl⟩
  | a, b :: rest => by
    obtain ⟨t, ht⟩ := collapseSeps_cons b rest
    by_cases h : a = sep ∧ b = sep
    · refine ⟨t, ?_⟩
      obtain ⟨ha, hb⟩ := h
      subst ha
      subst hb
      simp only [collapseSeps, beq_self_eq_true, Bool.and_self, if_true]
      exact ht
    · refine ⟨collapseSeps (b :: rest), ?_⟩
      have hc : (a == sep && b == sep) = false := by
        rcases not_and_or.mp h with h1 | h1 <;> simp [h1]
      simp only [collapseSeps, hc, Bool.false_eq_true, if_false]

theorem mem_collapseSeps : ∀ (l : List Nat) (n : Nat), n ∈ collapseSeps l → n ∈ l
  | [], _, h => h
  | [a], _, h => h
  | a :: b :: rest, n, h => by
    simp only [collapseSeps] at h
    split_ifs at h with hc
    · exact List.mem_cons_of_mem a (mem_collapseSeps (b :: rest) n h)
    · rcases List.mem_cons.mp h with h1 | h1
      · exact h1 ▸ List.mem_cons_self a (b :: rest)
      · exact List.mem_cons_of_mem a (mem_collapseSeps (b :: rest) n h1)

theorem noDoubleSep_tail {a : Nat} {l : List Nat} (h : noDoubleSep (a :: l) = true) :
    noDoubleSep l = true := by
  cases l with
  | nil => rfl
  | cons b rest =>
    simp only [noDoubleSep, Bool.and_eq_true] at h
    exact h.2

theorem noDoubleSep_collapseSeps : ∀ l : List Nat, noDoubleSep (collapseSeps l) = true
  | [] => rfl
  | [_] => rfl
  | a :: b :: rest => by
    have ih := noDoubleSep_collapseSeps (b :: rest)
    by_cases hc : (a == sep && b == sep) = true
    · simp only [collapseSeps, hc, if_true]
      exact ih
    · have hc' : (a == sep && b == sep) = false := Bool.eq_false_iff.mpr hc
      simp only [collapseSeps, hc', Bool.false_eq_true, if_false]
      obtain ⟨t, ht⟩ := collapseSeps_cons b rest
      rw [ht]
      rw [ht] at ih
      simp only [noDoubleSep, Bool.and_eq_true]
      exact ⟨by simp only [hc', Bool.not_false], ih⟩

theorem collapseSeps_fixed : ∀ l : List Nat, noDoubleSep l = true → collapseSeps l = l
  | [], _ => rfl
  | [_], _ => rfl
  | a :: b :: rest, h => by
    simp only [noDoubleSep, Bool.and_eq_true, Bool.not_eq_true'] at h
    simp only [collapseSeps, h.1, Bool.false_eq_true, if_false]
    rw [collapseSeps_fixed (b :: rest) h.2]

theorem mem_trimLeft : ∀ (l : List Nat) (n : Nat), n ∈ trimLeft l → n ∈ l
  | [], _, h => h
  | a :: rest, n, h => by
    simp only [trimLeft] at h
    split_ifs at h with hc
    · exact List.mem_cons_of_mem a (mem_trimLeft rest n h)
    · exact h

theorem head?_trimLeft_ne_sep : ∀ l : List Nat, (trimLeft l).head? ≠ some sep
  | [] => by simp [trimLeft]
  | a :: rest => by
    simp only [trimLeft]
    split_ifs with hc
    · exact head?_trimLeft_ne_sep rest
    · simp only [List.head?_cons, ne_eq, Option.some.injEq]
      intro h
      exact hc (by simp [h])

theorem trimLeft_fixed : ∀ l : List Nat, l.head? ≠ some sep → trimLeft l = l
  | [], _ => rfl
  | a :: rest, h => by
    simp only [List.head?_cons, ne_eq, Option.some.injEq] at h
    have hc : (a == sep) = false := beq_eq_false_iff_ne.mpr h
    simp only [trimLeft, hc, Bool.false_eq_true, if_false]

theorem noDoubleSep_trimLeft : ∀ l : List Nat,
    noDoubleSep l = true → noDoubleSep (trimLeft l) = true
  | [], _ => rfl
  | a :: rest, h => by
    simp only [trimLeft]
    split_ifs with hc
    · exact noDoubleSep_trimLeft rest (noDoubleSep_tail h)
    · exact h

theorem mem_trimRight : ∀ (l : List Nat) (n : Nat), n ∈ trimRight l → n ∈ l
  | [], _, h => h
  | a :: rest, n, h => by
    simp only [trimRight] at h
    rcases htr : trimRight rest with _ | ⟨b, t⟩
    · rw [htr] at h
      split_ifs at h with hc
      · exact absurd h (List.not_mem_nil n)
      · simp only [List.mem_singleton] at h
        exact h ▸ List.mem_cons_self a rest
    · rw [htr] at h
      rcases List.mem_cons.mp h with h1 | h1
      · exact h1 ▸ List.mem_cons_self a rest
      · exact List.mem_cons_of_mem a (mem_trimRight rest n (htr ▸ h1))

theorem head?_trimRight (l : List Nat) {c : Nat} (h : (trimRight l).head? = some c) :
    l.head? = some c := by
  cases l with
  | nil => simp [trimRight] at h
  | cons a rest =>
    simp only [trimRight] at h
    rcases htr : trimRight rest with _ | ⟨b, t⟩
    · rw [htr] at h
      split_ifs at h with hc
      · simp at h
      · simp only [List.head?_cons, Option.some.injEq] at h
        simp [h]
    · rw [htr] at h
      simp only [List.head?_cons, Option.some.injEq] at h
      simp [h]

theorem getLast?_trimRight_ne_sep : ∀ l : List Nat, (trimRight l).getLast? ≠ some sep
  | [] => by simp [trimRight]
  | a :: rest => by
    have ih := getLast?_trimRight_ne_sep rest
    simp only [trimRight]
    rcases htr : trimRight rest with _ | ⟨b, t⟩
    · split_ifs with hc
      · simp
      · simp only [List.getLast?_singleton, ne_eq, Option.some.injEq]
        intro h
        exact hc (by simp [h])
    · rw [htr] at ih
      rw [List.getLast?_cons_cons]
      exact ih

theorem trimRight_fixed : ∀ l : List Nat, l.getLast? ≠ some sep → trimRight l = l
  | [], _ => rfl
  | a :: rest, h => by
    cases rest with
    | nil =>
      have ha : a ≠ sep := by simpa using h
      have hc : (a == sep) = false := beq_eq_false_iff_ne.mpr ha
      simp [trimRight, hc]
    | cons b rest' =>
      have h' : (b :: rest').getLast? ≠ some sep := by
        rwa [List.getLast?_cons_cons] at h
      have ih := trimRight_fixed (b :: rest') h'
      have step : trimRight (a :: b :: rest') =
          match trimRight (b :: rest') with
          | [] => if a == sep then [] else [a]
          | c :: t => a :: c :: t := rfl
      rw [step, ih]

theorem noDoubleSep_trimRight : ∀ l : List Nat,
    noDoubleSep l = true → noDoubleSep (trimRight l) = true
  | [], _ => rfl
  | a :: rest, h => by
    have ih := noDoubleSep_trimRight rest (noDoubleSep_tail h)
    simp only [trimRight]
    rcases htr : trimRight rest with _ | ⟨b, t⟩
    · split_ifs with hc <;> rfl
    · simp only [noDoubleSep, Bool.and_eq_true]
      constructor
      · have hb : rest.head? = some b := head?_trimRight rest (by rw [htr]; rfl)
        cases rest with
        | nil => simp at hb
        | cons r rrest =>
          simp only [List.head?_cons, Option.some.injEq] at hb
          subst hb
          simp only [noDoubleSep, Bool.and_eq_true] at h
          exact h.1
      · rw [htr] at ih
        exact ih

theorem convert_mem_isSlugOut (l : List Nat) (n : Nat) (h : n ∈ convert_title_to_slug l) :
    IsSlugOut n := by
  have h1 := mem_trimLeft _ n (mem_trimRight _ n h)
  have h2 := mem_collapseSeps _ n h1
  obtain ⟨m, _, hm⟩ := List.mem_map.mp h2
  exact hm ▸ slugMapChar_isSlugOut m

theorem noDoubleSep_convert (l : List Nat) : noDoubleSep (convert_title_to_slug l) = true :=
  noDoubleSep_trimRight _ (noDoubleSep_trimLeft _ (noDoubleSep_collapseSeps _))

theorem head?_convert_ne_sep (l : List Nat) : (convert_title_to_slug l).head? ≠ some sep :=
  fun h => head?_trimLeft_ne_sep _ (head?_trimRight _ h)

theorem getLast?_convert_ne_sep (l : List Nat) :
    (convert_title_to_slug l).getLast? ≠ some sep :=
  getLast?_trimRight_ne_sep _

theorem convert_fixed (l : List Nat) (hmem : ∀ n ∈ l, IsSlugOut n)
    (hnds : noDoubleSep l = true) (hh : l.head? ≠ some sep) (hl : l.getLast? ≠ some sep) :
    convert_title_to_slug l = l := by
  unfold convert_title_to_slug
  rw [map_slugMapChar_fixed l hmem, collapseSeps_fixed l hnds, trimLeft_fixed l hh,
    trimRight_fixed l hl]

theorem convert_title_to_slug_idem (l : List Nat) :
    convert_title_to_slug (convert_title_to_slug l) = convert_title_to_slug l :=
  convert_fixed _ (convert_mem_isSlugOut l) (noDoubleSep_convert l) (head?_convert_ne_sep l)
    (getLast?_convert_ne_sep l)

/-! ## Credential service

Modelled from the spec: the bcrypt crate is an external collaborator (spec
§1 excludes the password-hash algorithm).  Spec §4.1: `hash` is a salted
one-way transform; `verify` returns false on mismatch and fails only on a
malformed stored hash.  The model keeps the observable structure of bcrypt
output: a fixed format header, the salt, then a digest of the plaintext. -/

/-- Digest component of the modelled bcrypt hash. -/
def bcryptDigest (p : List Nat) : List Nat := p.map (fun n => n % 64 + 46)

/-- Code points of the bcrypt format header for the default cost. -/
def bcryptHeader : List Nat := str ("$2b$12$")

/-- Modelled from the spec: `bcrypt::hash` with a per-call random salt,
passed here explicitly. -/
def bcryptHash (salt : Nat) (p : List Nat) : List Nat :=
  bcryptHeader ++ [salt] ++ bcryptDigest p

/-- Whether a stored string has the format of a modelled bcrypt hash. -/
def isBcryptFormat (h : List Nat) : Bool := h.take 7 == bcryptHeader

/-- Errors surfaced as recoverable `Result::Err` values. -/
inductive DbError where
  | notFound
  | uniqueViolation
  | invalidHash
  deriving Repr, DecidableEq

/-- Modelled from the spec: `bcrypt::verify` returns `Ok(false)` on a
password mismatch and `Err` only when the stored hash is malformed. -/
def bcrypt_verify (p h : List Nat) : Except DbError Bool :=
  if isBcryptFormat h then .ok (h.drop 8 == bcryptDigest p) else .error .invalidHash

/-- Outcome of a Rust call: a normal return, a recoverable `Result::Err`
(propagated to the caller with `?`), or a process abort from
`expect`/`unwrap`, carrying the panic message. -/
inductive Outcome (α : Type) where
  | ok : α → Outcome α
  | err : DbError → Outcome α
  | panic : List Nat → Outcome α
  deriving Repr, DecidableEq

/-! ## Data model (tables as lists of rows) -/

/-- A row of the `users` table. -/
structure UserRow where
  id : Nat
  email : List Nat
  username : List Nat
  password : List Nat
  bio : Option (List Nat)
  image : Option (List Nat)
  created_at : Nat
  updated_at : Nat
  deriving Repr, DecidableEq

/-- A row of the `follows` table. -/
structure FollowRow where
  followee_id : Nat
  follower_id : Nat
  created_at : Nat
  updated_at : Nat
  deriving Repr, DecidableEq

/-- A row of the `articles` table. -/
structure ArticleRow where
  id : Nat
  author_id : Nat
  slug : List Nat
  title : List Nat
  description : List Nat
  body : List Nat
  created_at : Nat
  updated_at : Nat
  deriving Repr, DecidableEq

/-- A row of the `tags` table; tags belong to an article
(`Tag::belonging_to` in `app/article/api.rs`). -/
structure TagRow where
  id : Nat
  article_id : Nat
  name : List Nat
  created_at : Nat
  updated_at : Nat
  deriving Repr, DecidableEq

/-- The database state. -/
structure DBState where
  users : List UserRow
  follows : List FollowRow
  articles : List ArticleRow
  tags : List TagRow
  deriving Repr, DecidableEq

/-- Modelled from the spec: `utils::token::generate` (not under `src/`), a
signed credential carrying the user id and issue time (§4.1). -/
structure Token where
  user_id : Nat
  iat : Nat
  deriving Repr, DecidableEq

/-- `User::generate_token` (`app/user/model.rs`); the current time is an
explicit parameter. -/
def generate_token (u : UserRow) (now : Nat) : Token := { user_id := u.id, iat := now }

/-! ## User store (`src/src/app/user/model.rs`) -/

/-- `User::signup`: hashes the password, inserts the row (the database
rejects a duplicate email or username with a unique-constraint error,
surfaced through `?`), and issues a token.  The database-generated id,
clock and bcrypt salt are explicit parameters. -/
def User.signup (st : DBState) (fresh_id now salt : Nat)
    (_email _username naive_password : List Nat) : Outcome ((UserRow × Token) × DBState) :=
  let hashed_password := bcryptHash salt naive_password
  if st.users.any (fun u => u.email == _email || u.username == _username) then
    .err .uniqueViolation
  else
    let user : UserRow :=
      { id := fresh_id, email := _email, username := _username,
        password := hashed_password, bio := none, image := none,
        created_at := now, updated_at := now }
    .ok ((user, generate_token user now), { st with users := st.users ++ [user] })

/-- `User::signin`: looks the user up by email (`?` propagates NotFound),
then calls `verify(&naive_password, &user.password)?`.  As in the source,
only the error case of `verify` is propagated; its boolean result is
dropped, and a token is issued regardless. -/
def User.signin (st : DBState) (now : Nat) (_email naive_password : List Nat) :
    Outcome (UserRow × Token) :=
  match (st.users.filter (fun u => u.email == _email)).head? with
  | none => .err .notFound
  | some user =>
    match bcrypt_verify naive_password user.password with
    | .error e => .err e
    | .ok _matches => .ok (user, generate_token user now)

/-- `User::find_by_id`: `.first(conn).expect(...)` — a missing row aborts
the process instead of returning an error. -/
def User.find_by_id (st : DBState) (_id : Nat) : Outcome UserRow :=
  match st.users.find? (fun u => u.id == _id) with
  | none => .panic (str ("could not find user by id."))
  | some u => .ok u

/-- `User::find_by_username`: despite its `Result` signature, a missing row
hits `.expect(...)` and aborts. -/
def User.find_by_username (st : DBState) (_username : List Nat) : Outcome UserRow :=
  match (st.users.filter (fun u => u.username == _username)).head? with
  | none => .panic (str ("could not find user by username"))
  | some u => .ok u

/-- `UpdatableUser` (diesel `AsChangeset`): a `none` field is skipped, a
`some` field is written as given. -/
structure UpdatableUser where
  email : Option (List Nat)
  username : Option (List Nat)
  password : Option (List Nat)
  image : Option (List Nat)
  bio : Option (List Nat)
  deriving Repr, DecidableEq

/-- Applies an `UpdatableUser` changeset to a row: provided fields are
written verbatim, absent fields keep their stored values. -/
def applyUserChangeset (u : UserRow) (c : UpdatableUser) : UserRow :=
  { u with
    email := c.email.getD u.email,
    username := c.username.getD u.username,
    password := c.password.getD u.password,
    image := match c.image with | some v => some v | none => u.image,
    bio := match c.bio with | some v => some v | none => u.bio }

/-- `User::update`: `diesel::update(users.filter(id.eq(user_id)))
.set(changeset).get_result(conn)?` — updates the matching row and returns
it; with no matching row the `?` propagates NotFound. -/
def User.update (st : DBState) (user_id : Nat) (changeset : UpdatableUser) :
    Outcome (UserRow × DBState) :=
  match st.users.find? (fun u => u.id == user_id) with
  | none => .err .notFound
  | some u =>
    .ok (applyUserChangeset u changeset,
      { st with users :=
          st.users.map (fun v => if v.id == user_id then applyUserChangeset v changeset else v) })

/-! ## Follow store (`src/src/app/follow/model.rs`) -/

/-- `NewFollow` insert parameters. -/
structure NewFollow where
  follower_id : Nat
  followee_id : Nat
  deriving Repr, DecidableEq

/-- `DeleteFollow` delete parameters. -/
structure DeleteFollow where
  follower_id : Nat
  followee_id : Nat
  deriving Repr, DecidableEq

/-- `Follow::create_follow`: inserts a row into `follows`. -/
def Follow.create_follow (st : DBState) (now : Nat) (params : NewFollow) : DBState :=
  { st with follows := st.follows ++
      [{ followee_id := params.followee_id, follower_id := params.follower_id,
         created_at := now, updated_at := now }] }

/-- `Follow::delete_follow`: deletes every row matching the
(followee, follower) pair; deleting zero rows succeeds. -/
def Follow.delete_follow (st : DBState) (params : DeleteFollow) : DBState :=
  { st with follows := st.follows.filter fun f =>
      !(f.followee_id == params.followee_id && f.follower_id == params.follower_id) }

/-- `Profile` (`app/profile/model.rs` via its uses here): a derived view,
not persisted. -/
structure Profile where
  username : List Nat
  bio : Option (List Nat)
  image : Option (List Nat)
  following : Bool
  deriving Repr, DecidableEq

/-- `User::follow`: resolves the followee by username (`.first(conn)
.expect(...)` aborts when absent), inserts the follow row, and returns a
`Profile` built from `self` with `following = true`. -/
def User.follow (self : UserRow) (st : DBState) (now : Nat) (_username : List Nat) :
    Outcome (Profile × DBState) :=
  match (st.users.filter (fun u => u.username == _username)).head? with
  | none => .panic (str ("could not find user by name."))
  | some followee =>
    let st' := Follow.create_follow st now
      { follower_id := self.id, followee_id := followee.id }
    .ok ({ username := self.username, bio := self.bio, image := self.image,
           following := true }, st')

/-- `User::unfollow`: resolves the followee by username (abort when
absent), deletes the follow row if present, and returns a `Profile` built
from `self` with `following = false`. -/
def User.unfollow (self : UserRow) (st : DBState) (_username : List Nat) :
    Outcome (Profile × DBState) :=
  match (st.users.filter (fun u => u.username == _username)).head? with
  | none => .panic (str ("could not find user by name."))
  | some followee =>
    let st' := Follow.delete_follow st
      { followee_id := followee.id, follower_id := self.id }
    .ok ({ username := self.username, bio := self.bio, image := self.image,
           following := false }, st')

/-- `User::is_following`: existence check on `follows` for
(followee, follower). -/
def User.is_following (self : UserRow) (st : DBState) (_followee_id : Nat) : Bool :=
  st.follows.any (fun f => f.followee_id == _followee_id && f.follower_id == self.id)

/-! ## Article store (`src/src/app/article/api.rs`; the article model and
response modules are not under `src/` and are modelled from the spec where
noted) -/

/-- `NewArticle` insert record, as built in the `create` handler. -/
structure NewArticle where
  author_id : Nat
  title : List Nat
  slug : List Nat
  description : List Nat
  body : List Nat
  deriving Repr, DecidableEq

/-- `UpdateArticle` changeset, as built in the `update` handler. -/
structure UpdateArticle where
  slug : Option (List Nat)
  title : Option (List Nat)
  description : Option (List Nat)
  body : Option (List Nat)
  deriving Repr, DecidableEq

/-- Applies an `UpdateArticle` changeset to a row: provided fields are
written, absent fields keep their stored values (diesel `AsChangeset`). -/
def applyArticleChangeset (a : ArticleRow) (c : UpdateArticle) : ArticleRow :=
  { a with
    slug := c.slug.getD a.slug,
    title := c.title.getD a.title,
    description := c.description.getD a.description,
    body := c.body.getD a.body }

/-- Modelled from the spec: `Article::update` (article model not under
`src/`); §4.4: applies the provided subset of fields to the row with the
given id.  A missing row aborts, matching the store's `expect` style. -/
def Article.update (st : DBState) (article_id : Nat) (changeset : UpdateArticle) :
    Outcome (ArticleRow × DBState) :=
  match st.articles.find? (fun a => a.id == article_id) with
  | none => .panic (str ("could not update article."))
  | some a =>
    .ok (applyArticleChangeset a changeset,
      { st with articles :=
          st.articles.map fun v =>
            if v.id == article_id then applyArticleChangeset v changeset else v })

/-- Body of `request::UpdateArticleRequest` (`{article: {title?,
description?, body?}}`). -/
structure UpdateArticleReq where
  title : Option (List Nat)
  description : Option (List Nat)
  body : Option (List Nat)
  deriving Repr, DecidableEq

/-- The `update` handler (`app/article/api.rs`): recomputes the slug from
the request title exactly when a title is provided
(`form.article.title.as_ref().map(convert_title_to_slug)`), then calls
`Article::update` with the changeset. -/
def updateArticleHandler (st : DBState) (article_id : Nat) (form : UpdateArticleReq) :
    Outcome (ArticleRow × DBState) :=
  let new_slug := form.title.map convert_title_to_slug
  Article.update st article_id
    { slug := new_slug, title := form.title,
      description := form.description, body := form.body }

/-- The `articles.inner_join(users::table)` query: each article paired with
its author row; articles whose author is missing drop out of the join. -/
def innerJoinUsers (st : DBState) : List (ArticleRow × UserRow) :=
  st.articles.filterMap fun a =>
    (st.users.find? (fun u => u.id == a.author_id)).map (fun u => (a, u))

/-- `Tag::belonging_to` + `grouped_by`: the tag rows of one article. -/
def tagsOf (st : DBState) (a : ArticleRow) : List TagRow :=
  st.tags.filter (fun t => t.article_id == a.id)

/-- `articles.select(count(id))`: the SQL row count of the whole
`articles` table, as the database computes it (an `i64`). -/
def countRows (l : List ArticleRow) : Int :=
  l.foldl (fun acc _ => acc + 1) 0

/-- The `index` handler (`app/article/api.rs`): joins articles with users,
applies the fixed `offset = 0` and `limit = 20`, attaches each article's
tags, and separately counts the full table. -/
def index (st : DBState) : List ((ArticleRow × UserRow) × List TagRow) × Int :=
  let offset := 0
  let limit := 20
  let article_and_user_list := ((innerJoinUsers st).drop offset).take limit
  let articles_list := article_and_user_list.map Prod.fst
  let tags_list := articles_list.map (tagsOf st)
  let combined := article_and_user_list.zip tags_list
  let articles_count := countRows st.articles
  (combined, articles_count)

/-- Author object of the article responses.

Modelled from the spec: the response module is not under `src/`; §3 and the
glossary give the profile projection (username, bio, image, following). -/
structure AuthorView where
  username : List Nat
  bio : Option (List Nat)
  image : Option (List Nat)
  following : Bool
  deriving Repr, DecidableEq

/-- Modelled from the spec: `response::SingleArticleResponse` — the
client-facing article shape (§6 DTOs), carrying the article fields, the
tag names, and the author profile projection. -/
structure SingleArticleResponse where
  slug : List Nat
  title : List Nat
  description : List Nat
  body : List Nat
  tagList : List (List Nat)
  author : AuthorView
  deriving Repr, DecidableEq

/-- Modelled from the spec: `SingleArticleResponse::from(article, user,
tag_list)` — projects the article row, the tag names, and the user's
profile fields into the response. -/
def singleArticleResponseFrom (a : ArticleRow) (u : UserRow) (tag_list : List TagRow) :
    SingleArticleResponse :=
  { slug := a.slug, title := a.title, description := a.description, body := a.body,
    tagList := tag_list.map (fun t => t.name),
    author := { username := u.username, bio := u.bio, image := u.image, following := false } }

/-- The strings an `Option` field contributes to serialized output. -/
def optStrings : Option (List Nat) → List (List Nat)
  | none => []
  | some s => [s]

/-- Every string contained in the serialized form of a
`SingleArticleResponse`. -/
def responseStrings (r : SingleArticleResponse) : List (List Nat) :=
  [r.slug, r.title, r.description, r.body] ++ r.tagList ++ [r.author.username] ++
    optStrings r.author.bio ++ optStrings r.author.image

/-- Body of `request::CreateArticleRequest` (`{article: {title,
description, body, tagList}}`). -/
structure CreateArticleReq where
  title : List Nat
  description : List Nat
  body : List Nat
  tagList : List (List Nat)
  deriving Repr, DecidableEq

/-- Modelled from the spec: `service::create` (not under `src/`); §4.4:
persists the article and creates the tag rows for the given names, returning
the article and its tags.  Fresh ids and the clock are explicit. -/
def service_create (st : DBState) (fresh_id now : Nat) (tag_ids : List Nat)
    (record : NewArticle) (tag_names : List (List Nat)) :
    (ArticleRow × List TagRow) × DBState :=
  let article : ArticleRow :=
    { id := fresh_id, author_id := record.author_id, slug := record.slug,
      title := record.title, description := record.description, body := record.body,
      created_at := now, updated_at := now }
  let new_tags := (tag_names.zip tag_ids).map fun nt =>
    ({ id := nt.2, article_id := article.id, name := nt.1,
       created_at := now, updated_at := now } : TagRow)
  ((article, new_tags),
    { st with articles := st.articles ++ [article], tags := st.tags ++ new_tags })

/-- The `create` handler (`app/article/api.rs`): builds the `NewArticle`
with the slug derived from the request title, calls `service::create`, and
shapes the response from the created article, the authenticated user and
the resolved tags. -/
def createArticleHandler (st : DBState) (auth_user : UserRow) (fresh_id now : Nat)
    (tag_ids : List Nat) (form : CreateArticleReq) : SingleArticleResponse × DBState :=
  let record : NewArticle :=
    { author_id := auth_user.id, title := form.title,
      slug := convert_title_to_slug form.title,
      description := form.description, body := form.body }
  let created := service_create st fresh_id now tag_ids record form.tagList
  (singleArticleResponseFrom created.1.1 auth_user created.1.2, created.2)

/-- The `update` handler carried through to response shaping
(`app/article/api.rs`, `SingleArticleResponse::from(article, auth_user,
tag_list)` with `tag_list = vec![]`). -/
def updateArticleHandlerResponse (st : DBState) (auth_user : UserRow) (article_id : Nat)
    (form : UpdateArticleReq) : Outcome (SingleArticleResponse × DBState) :=
  match updateArticleHandler st article_id form with
  | .ok (article, st') => .ok (singleArticleResponseFrom article auth_user [], st')
  | .err e => .err e
  | .panic m => .panic m

/-- Modelled from the spec: `response::MultipleArticlesResponse`
(§6 DTOs: `{articles, articlesCount}`; the response module is not under
`src/`). -/
structure MultipleArticlesResponse where
  articles : List SingleArticleResponse
  articlesCount : Int
  deriving Repr, DecidableEq

/-- Modelled from the spec: `MultipleArticlesResponse::from(articles_list,
articles_count)` — one article entry per joined row, each shaped like a
single-article response from the article, its joined author and its tags. -/
def multipleArticlesResponseFrom (items : List ((ArticleRow × UserRow) × List TagRow))
    (count : Int) : MultipleArticlesResponse :=
  { articles := items.map (fun it => singleArticleResponseFrom it.1.1 it.1.2 it.2),
    articlesCount := count }

/-- The `index` handler carried through to response shaping
(`app/article/api.rs`, `MultipleArticlesResponse::from(articles_list,
articles_count)`). -/
def indexHandlerResponse (st : DBState) : MultipleArticlesResponse :=
  multipleArticlesResponseFrom (index st).1 (index st).2

/-- Every string contained in the serialized form of a
`MultipleArticlesResponse`. -/
def multiResponseStrings (r : MultipleArticlesResponse) : List (List Nat) :=
  r.articles.flatMap responseStrings

/-- The strings of an article row that a response can carry. -/
def articleStrings (a : ArticleRow) : List (List Nat) :=
  [a.slug, a.title, a.description, a.body]

/-- The strings of a user's public profile projection. -/
def profileStrings (u : UserRow) : List (List Nat) :=
  [u.username] ++ optStrings u.bio ++ optStrings u.image

/-! ## Shared lemmas -/

theorem bcryptHash_length (salt : Nat) (p : List Nat) :
    (bcryptHash salt p).length = p.length + 8 := by
  have hh : bcryptHeader.length = 7 := by decide
  simp [bcryptHash, bcryptDigest, hh]
  omega

theorem bcryptHash_ne (salt : Nat) (p : List Nat) : bcryptHash salt p ≠ p := by
  intro h
  have hl := congrArg List.length h
  rw [bcryptHash_length] at hl
  omega

theorem isBcryptFormat_bcryptHash (salt : Nat) (p : List Nat) :
    isBcryptFormat (bcryptHash salt p) = true := by
  have : (bcryptHash salt p).take 7 = bcryptHeader := by
    have hh : bcryptHeader.length = 7 := by decide
    simp [bcryptHash, List.take_append_eq_append_take, hh]
  simp [isBcryptFormat, this]

theorem any_filter_not {α : Type} (l : List α) (p : α → Bool) :
    (l.filter fun x => !p x).any p = false := by
  rw [Bool.eq_false_iff]
  intro h
  obtain ⟨x, hx, hpx⟩ := List.any_eq_true.mp h
  rw [List.mem_filter] at hx
  simp [hpx] at hx

theorem countRows_aux (l : List ArticleRow) :
    ∀ acc : Int, l.foldl (fun a _ => a + 1) acc = acc + l.length := by
  induction l with
  | nil => intro acc; simp
  | cons x xs ih =>
    intro acc
    simp only [List.foldl_cons, List.length_cons, ih]
    push_cast
    ring

theorem countRows_eq_length (l : List ArticleRow) : countRows l = (l.length : Int) := by
  have := countRows_aux l 0
  simpa [countRows] using this

/-! ## Claim C1 -/

/-- A stored user whose password hash was taken over the plaintext
"correct-horse". -/
def aliceStored : UserRow :=
  { id := 1, email := str ("user@example.com"), username := str ("alice"),
    password := bcryptHash 7 (str ("correct-horse")), bio := none, image := none,
    created_at := 0, updated_at := 0 }

/-- State holding exactly the user `aliceStored`. -/
def signinState : DBState :=
  { users := [aliceStored], follows := [], articles := [], tags := [] }

/-- C1: the claim says signin with a plaintext whose verification fails
returns InvalidCredential and issues no token.  The code violates this:
`verify(&naive_password, &user.password)?` propagates only the `Err` case
(malformed hash); a mismatch is `Ok(false)`, the boolean is dropped, and
signin returns the user with a freshly issued token.  This theorem
evaluates the code at the failing input: verification fails, yet signin
succeeds and issues a token. -/
theorem C1_wrong_password_still_issues_token :
    bcrypt_verify (str ("wrong")) (bcryptHash 7 (str ("correct-horse"))) = .ok false ∧
    User.signin signinState 99 (str ("user@example.com")) (str ("wrong")) =
      .ok (aliceStored, { user_id := 1, iat := 99 }) := by
  exact ⟨by rfl, by decide⟩

/-! ## Claim C2 -/

/-- A stored user holding a properly hashed password. -/
def aliceHashedRow : UserRow :=
  { id := 1, email := str ("a@b.c"), username := str ("alice"),
    password := bcryptHash 3 (str ("old-password")), bio := none, image := none,
    created_at := 0, updated_at := 0 }

/-- State holding exactly the user `aliceHashedRow`. -/
def updateState : DBState :=
  { users := [aliceHashedRow], follows := [], articles := [], tags := [] }

/-- The row `aliceHashedRow` after the password column was overwritten with
the plaintext. -/
def alicePlainRow : UserRow :=
  { id := 1, email := str ("a@b.c"), username := str ("alice"),
    password := str ("plaintext-pw"), bio := none, image := none,
    created_at := 0, updated_at := 0 }

/-- Changeset carrying a plaintext password, as a caller would send it. -/
def plainChangeset : UpdatableUser :=
  { email := none, username := none, password := some (str ("plaintext-pw")),
    image := none, bio := none }

/-- C2 counterexample: updating with password "plaintext-pw" persists that
very string, which does not even have the bcrypt hash format — so the
persisted value is not the hash of the provided password. -/
theorem C2_password_not_rehashed_counterexample :
    User.update updateState 1 plainChangeset =
      .ok (alicePlainRow,
        { users := [alicePlainRow], follows := [], articles := [], tags := [] }) ∧
    isBcryptFormat (str ("plaintext-pw")) = false := by
  constructor <;> decide

/-- C2 (amended): `User::update` persists a provided password value
verbatim; no re-hashing happens in the store, so the hashed-password
invariant is the caller's responsibility. -/
theorem C2_update_persists_password_verbatim (st : DBState) (uid : Nat)
    (c : UpdatableUser) (p : List Nat) (u : UserRow)
    (hfind : st.users.find? (fun v => v.id == uid) = some u)
    (hpw : c.password = some p) :
    ∃ u' st', User.update st uid c = .ok (u', st') ∧ u'.password = p := by
  refine ⟨applyUserChangeset u c,
    { st with users := st.users.map fun v =>
        if v.id == uid then applyUserChangeset v c else v }, ?_, ?_⟩
  · simp only [User.update, hfind]
  · simp [applyUserChangeset, hpw]

/-- Witness for the amended C2 at a concrete state and changeset. -/
theorem C2_update_persists_password_verbatim_witness :
    ∃ u' st', User.update updateState 1 plainChangeset = .ok (u', st') ∧
      u'.password = str ("plaintext-pw") :=
  C2_update_persists_password_verbatim updateState 1 plainChangeset
    (str ("plaintext-pw")) aliceHashedRow (by decide) (by decide)

/-! ## Claim C4 -/

/-- The empty database. -/
def emptyState : DBState := { users := [], follows := [], articles := [], tags := [] }

/-- C4 counterexample: with no matching row, `find_by_id` and
`find_by_username` abort the process with the `expect` panic message; in
particular neither returns a NotFound error to the caller. -/
theorem C4_lookup_panics_counterexample :
    User.find_by_id emptyState 1 = .panic (str ("could not find user by id.")) ∧
    User.find_by_id emptyState 1 ≠ .err .notFound ∧
    User.find_by_username emptyState (str ("ghost")) =
      .panic (str ("could not find user by username")) ∧
    User.find_by_username emptyState (str ("ghost")) ≠ .err .notFound := by
  refine ⟨by decide, by decide, by decide, by decide⟩

/-- C4 (amended): for every id (resp. username) with no matching user row,
`find_by_id` (resp. `find_by_username`) aborts via `expect` with a panic,
rather than returning a NotFound error or succeeding. -/
theorem C4_missing_user_lookup_aborts (st : DBState) (i : Nat) (un : List Nat)
    (h1 : st.users.find? (fun u => u.id == i) = none)
    (h2 : (st.users.filter (fun u => u.username == un)).head? = none) :
    User.find_by_id st i = .panic (str ("could not find user by id.")) ∧
    User.find_by_username st un = .panic (str ("could not find user by username")) := by
  constructor
  · simp only [User.find_by_id, h1]
  · simp only [User.find_by_username, h2]

/-- Witness for the amended C4 on the empty database. -/
theorem C4_missing_user_lookup_aborts_witness :
    User.find_by_id emptyState 1 = .panic (str ("could not find user by id.")) ∧
    User.find_by_username emptyState (str ("ghost")) =
      .panic (str ("could not find user by username")) :=
  C4_missing_user_lookup_aborts emptyState 1 (str ("ghost")) (by decide) (by decide)

/-! ## Claim C9 -/

/-- C9: with no existing row matching the email or the username, signup
succeeds; the stored password of the returned user is the bcrypt hash of
the plaintext, and in particular differs from the plaintext. -/
theorem C9_signup_stores_hashed_password (st : DBState) (fid now salt : Nat)
    (e un pw : List Nat)
    (h : st.users.any (fun u => u.email == e || u.username == un) = false) :
    ∃ u tok st', User.signup st fid now salt e un pw = .ok ((u, tok), st') ∧
      u.password = bcryptHash salt pw ∧ u.password ≠ pw := by
  simp only [User.signup, h, Bool.false_eq_true, if_false]
  exact ⟨_, _, _, rfl, rfl, bcryptHash_ne salt pw⟩

/-- Witness for C9 on the empty database. -/
theorem C9_signup_stores_hashed_password_witness :
    ∃ u tok st', User.signup emptyState 1 0 7 (str ("a@b.c")) (str ("alice"))
        (str ("hunter2")) = .ok ((u, tok), st') ∧
      u.password = bcryptHash 7 (str ("hunter2")) ∧ u.password ≠ str ("hunter2") :=
  C9_signup_stores_hashed_password emptyState 1 0 7 (str ("a@b.c")) (str ("alice"))
    (str ("hunter2")) (by decide)

/-! ## Claims C6 and C10 -/

/-- C6: when the target username resolves to user `b`: after `a` follows,
`is_following(a, b)` is true; after `a` then unfollows, it is false; and
unfollowing when no follow row for the pair exists returns normally and
leaves the state unchanged. -/
theorem C6_follow_unfollow_lifecycle (st : DBState) (a b : UserRow) (uname : List Nat)
    (n1 : Nat)
    (hres : (st.users.filter (fun u => u.username == uname)).head? = some b) :
    (∃ p1 st1, User.follow a st n1 uname = .ok (p1, st1) ∧
      User.is_following a st1 b.id = true ∧
      ∃ p2 st2, User.unfollow a st1 uname = .ok (p2, st2) ∧
        User.is_following a st2 b.id = false) ∧
    ((∀ f ∈ st.follows, ¬(f.followee_id = b.id ∧ f.follower_id = a.id)) →
      ∃ p3 st3, User.unfollow a st uname = .ok (p3, st3) ∧ st3 = st) := by
  constructor
  · refine ⟨{ username := a.username, bio := a.bio, image := a.image, following := true },
      Follow.create_follow st n1 { follower_id := a.id, followee_id := b.id },
      ?_, ?_, ?_⟩
    · simp only [User.follow, hres]
    · simp [User.is_following, Follow.create_follow]
    · have hres' : ((Follow.create_follow st n1
          { follower_id := a.id, followee_id := b.id }).users.filter
            (fun u => u.username == uname)).head? = some b := hres
      refine ⟨{ username := a.username, bio := a.bio, image := a.image, following := false },
        Follow.delete_follow
          (Follow.create_follow st n1 { follower_id := a.id, followee_id := b.id })
          { follower_id := a.id, followee_id := b.id },
        ?_, ?_⟩
      · simp only [User.unfollow, hres']
      · exact any_filter_not
          ((Follow.create_follow st n1 { follower_id := a.id, followee_id := b.id }).follows)
          (fun f => f.followee_id == b.id && f.follower_id == a.id)
  · intro hno
    have hfix : (st.follows.filter fun f =>
        !(f.followee_id == b.id && f.follower_id == a.id)) = st.follows := by
      apply List.filter_eq_self.mpr
      intro f hf
      rcases not_and_or.mp (hno f hf) with hcase | hcase
      · have hb : (f.followee_id == b.id) = false := beq_eq_false_iff_ne.mpr hcase
        simp [hb]
      · have hb : (f.follower_id == a.id) = false := beq_eq_false_iff_ne.mpr hcase
        simp [hb]
    refine ⟨{ username := a.username, bio := a.bio, image := a.image, following := false },
      Follow.delete_follow st { follower_id := a.id, followee_id := b.id }, ?_, ?_⟩
    · simp only [User.unfollow, hres]
    · show ({ st with follows := st.follows.filter fun f =>
        !(f.followee_id == b.id && f.follower_id == a.id) } : DBState) = st
      rw [hfix]

/-- A first user for the concrete follow scenarios. -/
def aliceW : UserRow :=
  { id := 1, email := str ("alice@x.y"), username := str ("alice"),
    password := bcryptHash 1 (str ("pa")), bio := some (str ("likes lean")),
    image := some (str ("alice.png")), created_at := 0, updated_at := 0 }

/-- A second user for the concrete follow scenarios. -/
def bobW : UserRow :=
  { id := 2, email := str ("bob@x.y"), username := str ("bob"),
    password := bcryptHash 2 (str ("pb")), bio := none, image := none,
    created_at := 0, updated_at := 0 }

/-- State holding the two users and no follow rows. -/
def followState : DBState :=
  { users := [aliceW, bobW], follows := [], articles := [], tags := [] }

/-- Witness for C6 at the concrete two-user state. -/
theorem C6_follow_unfollow_lifecycle_witness :
    (∃ p1 st1, User.follow aliceW followState 5 (str ("bob")) = .ok (p1, st1) ∧
      User.is_following aliceW st1 bobW.id = true ∧
      ∃ p2 st2, User.unfollow aliceW st1 (str ("bob")) = .ok (p2, st2) ∧
        User.is_following aliceW st2 bobW.id = false) ∧
    ((∀ f ∈ followState.follows, ¬(f.followee_id = bobW.id ∧ f.follower_id = aliceW.id)) →
      ∃ p3 st3, User.unfollow aliceW followState (str ("bob")) = .ok (p3, st3) ∧
        st3 = followState) :=
  C6_follow_unfollow_lifecycle followState aliceW bobW (str ("bob")) 5 (by decide)

/-- C10: the `Profile` returned by a successful follow or unfollow carries
the username, bio and image of the acting user `self`, not those of the
target resolved from the username. -/
theorem C10_profile_fields_from_acting_user (self : UserRow) (st : DBState) (now : Nat)
    (uname : List Nat) (b : UserRow)
    (hres : (st.users.filter (fun u => u.username == uname)).head? = some b) :
    (∃ st1, User.follow self st now uname =
      .ok ({ username := self.username, bio := self.bio, image := self.image,
             following := true }, st1)) ∧
    (∃ st2, User.unfollow self st uname =
      .ok ({ username := self.username, bio := self.bio, image := self.image,
             following := false }, st2)) := by
  constructor
  · exact ⟨Follow.create_follow st now { follower_id := self.id, followee_id := b.id },
      by simp only [User.follow, hres]⟩
  · exact ⟨Follow.delete_follow st { follower_id := self.id, followee_id := b.id },
      by simp only [User.unfollow, hres]⟩

/-- Witness for C10: alice follows and unfollows bob; both profiles carry
alice's fields, although bob was resolved as the target. -/
theorem C10_profile_fields_from_acting_user_witness :
    (∃ st1, User.follow aliceW followState 5 (str ("bob")) =
      .ok ({ username := aliceW.username, bio := aliceW.bio, image := aliceW.image,
             following := true }, st1)) ∧
    (∃ st2, User.unfollow aliceW followState (str ("bob")) =
      .ok ({ username := aliceW.username, bio := aliceW.bio, image := aliceW.image,
             following := false }, st2)) :=
  C10_profile_fields_from_acting_user aliceW followState 5 (str ("bob")) bobW (by decide)

/-! ## Claim C5 -/

/-- C5: slug derivation is a pure function realising the specified
normalisation: the spec's example holds; the output has no leading or
trailing separator, no two adjacent separators, and consists only of
lower-case alphanumerics and separators; and re-applying the derivation to
a derived slug changes nothing. -/
theorem C5_slug_derivation_normalises_and_is_idempotent :
    (convert_title_to_slug (str ("Hello, World!")) = str ("hello-world")) ∧
    (∀ l, (convert_title_to_slug l).head? ≠ some sep ∧
      (convert_title_to_slug l).getLast? ≠ some sep ∧
      noDoubleSep (convert_title_to_slug l) = true ∧
      (∀ n ∈ convert_title_to_slug l, IsSlugOut n)) ∧
    (∀ l, convert_title_to_slug (convert_title_to_slug l) = convert_title_to_slug l) :=
  ⟨by decide,
   fun l => ⟨head?_convert_ne_sep l, getLast?_convert_ne_sep l, noDoubleSep_convert l,
     convert_mem_isSlugOut l⟩,
   convert_title_to_slug_idem⟩

/-! ## Claim C7 -/

/-- C7: updating an existing article applies exactly the provided subset of
{title, description, body}: absent fields keep their stored values; the
slug is recomputed from the new title exactly when a title is provided and
is unchanged otherwise; id, author and creation time are untouched. -/
theorem C7_update_applies_provided_subset (st : DBState) (aid : Nat)
    (form : UpdateArticleReq) (art : ArticleRow)
    (hfind : st.articles.find? (fun x => x.id == aid) = some art) :
    ∃ a' st', updateArticleHandler st aid form = .ok (a', st') ∧
      a'.title = form.title.getD art.title ∧
      a'.description = form.description.getD art.description ∧
      a'.body = form.body.getD art.body ∧
      a'.slug = (match form.title with
        | some t => convert_title_to_slug t
        | none => art.slug) ∧
      a'.id = art.id ∧ a'.author_id = art.author_id ∧
      a'.created_at = art.created_at ∧ a'.updated_at = art.updated_at := by
  refine ⟨applyArticleChangeset art
      { slug := form.title.map convert_title_to_slug, title := form.title,
        description := form.description, body := form.body },
    { st with articles := st.articles.map fun v =>
        if v.id == aid then
          (applyArticleChangeset v
            { slug := form.title.map convert_title_to_slug, title := form.title,
              description := form.description, body := form.body })
        else v },
    ?_, rfl, rfl, rfl, ?_, rfl, rfl, rfl, rfl⟩
  · simp only [updateArticleHandler, Article.update, hfind]
  · cases form.title <;> simp [applyArticleChangeset]

/-- A stored article for the concrete update scenario. -/
def storedArticle : ArticleRow :=
  { id := 9, author_id := 1, slug := str ("old-title"), title := str ("Old Title"),
    description := str ("about things"), body := str ("text"),
    created_at := 3, updated_at := 4 }

/-- State holding the author and the stored article. -/
def articleState : DBState :=
  { users := [aliceW], follows := [], articles := [storedArticle], tags := [] }

/-- Witness for C7: a request providing only a new title; description and
body keep their stored values and the slug is recomputed. -/
theorem C7_update_applies_provided_subset_witness :
    ∃ a' st', updateArticleHandler articleState 9
        { title := some (str ("New Title!")), description := none, body := none } =
        .ok (a', st') ∧
      a'.title = (some (str ("New Title!"))).getD storedArticle.title ∧
      a'.description = (none : Option (List Nat)).getD storedArticle.description ∧
      a'.body = (none : Option (List Nat)).getD storedArticle.body ∧
      a'.slug = convert_title_to_slug (str ("New Title!")) ∧
      a'.id = storedArticle.id ∧ a'.author_id = storedArticle.author_id ∧
      a'.created_at = storedArticle.created_at ∧ a'.updated_at = storedArticle.updated_at :=
  C7_update_applies_provided_subset articleState 9
    { title := some (str ("New Title!")), description := none, body := none }
    storedArticle (by decide)

/-! ## Claim C8 -/

/-- C8: the article list operation serves the page at offset 0 with limit
20 of the article-author join, and the returned count is the full row
count of the articles table, independent of the pagination window. -/
theorem C8_index_fixed_page_and_full_count (st : DBState) :
    (index st).2 = (st.articles.length : Int) ∧
    (index st).1.map Prod.fst = (innerJoinUsers st).take 20 ∧
    (index st).1.length = min ((innerJoinUsers st).length) 20 := by
  refine ⟨?_, ?_, ?_⟩
  · simp only [index]
    exact countRows_eq_length st.articles
  · simp only [index, List.drop_zero]
    apply List.map_fst_zip
    simp
  · simp only [index, List.drop_zero]
    simp [List.length_zip, List.length_take, List.length_map]
    omega

/-! ## Claim C3 -/

theorem getD_mem_cases {s : List Nat} {o : Option (List Nat)} {d : List Nat}
    (h : s = o.getD d) : s ∈ optStrings o ∨ s = d := by
  cases o with
  | none => exact Or.inr h
  | some v => exact Or.inl (by simp [optStrings, h])

theorem mem_responseStrings_from (a : ArticleRow) (u : UserRow) (tag_list : List TagRow)
    (s : List Nat) (h : s ∈ responseStrings (singleArticleResponseFrom a u tag_list)) :
    s ∈ articleStrings a ∨ s ∈ tag_list.map (fun t => t.name) ∨ s ∈ profileStrings u := by
  simp only [responseStrings, singleArticleResponseFrom, articleStrings, profileStrings,
    List.mem_append, List.mem_cons, List.not_mem_nil, or_false] at h ⊢
  tauto

theorem mem_articleStrings_applyChangeset (art : ArticleRow) (c : UpdateArticle)
    (s : List Nat) (h : s ∈ articleStrings (applyArticleChangeset art c)) :
    s ∈ optStrings c.slug ∨ s ∈ optStrings c.title ∨ s ∈ optStrings c.description ∨
      s ∈ optStrings c.body ∨ s ∈ articleStrings art := by
  simp only [articleStrings, applyArticleChangeset, List.mem_cons, List.not_mem_nil,
    or_false] at h
  rcases h with h | h | h | h
  · rcases getD_mem_cases h with h1 | h1
    · exact Or.inl h1
    · exact Or.inr (Or.inr (Or.inr (Or.inr (by simp [articleStrings, h1]))))
  · rcases getD_mem_cases h with h1 | h1
    · exact Or.inr (Or.inl h1)
    · exact Or.inr (Or.inr (Or.inr (Or.inr (by simp [articleStrings, h1]))))
  · rcases getD_mem_cases h with h1 | h1
    · exact Or.inr (Or.inr (Or.inl h1))
    · exact Or.inr (Or.inr (Or.inr (Or.inr (by simp [articleStrings, h1]))))
  · rcases getD_mem_cases h with h1 | h1
    · exact Or.inr (Or.inr (Or.inr (Or.inl h1)))
    · exact Or.inr (Or.inr (Or.inr (Or.inr (by simp [articleStrings, h1]))))

theorem updateArticleHandler_ok_shape (st : DBState) (aid : Nat) (form : UpdateArticleReq)
    (p : ArticleRow × DBState) (h : updateArticleHandler st aid form = .ok p) :
    ∃ art, st.articles.find? (fun x => x.id == aid) = some art ∧
      p.1 = applyArticleChangeset art
        { slug := form.title.map convert_title_to_slug, title := form.title,
          description := form.description, body := form.body } := by
  cases hfind : st.articles.find? (fun x => x.id == aid) with
  | none =>
    simp only [updateArticleHandler, Article.update, hfind] at h
    exact Outcome.noConfusion h
  | some art =>
    simp only [updateArticleHandler, Article.update, hfind] at h
    injection h with h1
    exact ⟨art, rfl, by rw [← h1]⟩

theorem index_item_provenance (st : DBState) (a : ArticleRow) (u : UserRow)
    (tag_list : List TagRow) (h : ((a, u), tag_list) ∈ (index st).1) :
    a ∈ st.articles ∧ u ∈ st.users ∧ ∀ t ∈ tag_list, t ∈ st.tags := by
  simp only [index, List.drop_zero] at h
  obtain ⟨hau, htl⟩ := List.of_mem_zip h
  have hjoin : (a, u) ∈ innerJoinUsers st := List.take_subset _ _ hau
  obtain ⟨a0, ha0, hf⟩ := List.mem_filterMap.mp hjoin
  obtain ⟨u0, hfind, hpair⟩ := Option.map_eq_some'.mp hf
  have ha : a0 = a := congrArg Prod.fst hpair
  have hu : u0 = u := congrArg Prod.snd hpair
  refine ⟨ha ▸ ha0, hu ▸ List.mem_of_find?_eq_some hfind, ?_⟩
  obtain ⟨a1, ha1, htl_eq⟩ := List.mem_map.mp htl
  intro t ht
  rw [← htl_eq] at ht
  exact List.mem_of_mem_filter ht

/-- C3: no client-facing response contains a stored password.  All three
response-producing operations of the article handlers are covered: the
create handler's single-article response, the update handler's
single-article response, and the index handler's multiple-articles
response.  Each carries only article fields, tag names and the profile
projection, so a stored password distinct from those public strings never
appears in the serialized output. -/
theorem C3_client_responses_never_contain_password :
    (∀ st (auth_user : UserRow) fid now tag_ids form,
      auth_user.password ∉
        [convert_title_to_slug form.title, form.title, form.description, form.body] →
      auth_user.password ∉ form.tagList →
      auth_user.password ∉ profileStrings auth_user →
      auth_user.password ∉
        responseStrings (createArticleHandler st auth_user fid now tag_ids form).1) ∧
    (∀ st (auth_user : UserRow) aid form r st',
      updateArticleHandlerResponse st auth_user aid form = .ok (r, st') →
      (∀ a ∈ st.articles, auth_user.password ∉ articleStrings a) →
      auth_user.password ∉ optStrings (form.title.map convert_title_to_slug) →
      auth_user.password ∉ optStrings form.title →
      auth_user.password ∉ optStrings form.description →
      auth_user.password ∉ optStrings form.body →
      auth_user.password ∉ profileStrings auth_user →
      auth_user.password ∉ responseStrings r) ∧
    (∀ st, ∀ v ∈ st.users,
      (∀ a ∈ st.articles, v.password ∉ articleStrings a) →
      (∀ t ∈ st.tags, v.password ≠ t.name) →
      (∀ u ∈ st.users, v.password ∉ profileStrings u) →
      v.password ∉ multiResponseStrings (indexHandlerResponse st)) := by
  refine ⟨?_, ?_, ?_⟩
  · intro st auth_user fid now tag_ids form hart htag hprof hmem
    have hres : (createArticleHandler st auth_user fid now tag_ids form).1 =
        singleArticleResponseFrom
          { id := fid, author_id := auth_user.id,
            slug := convert_title_to_slug form.title, title := form.title,
            description := form.description, body := form.body,
            created_at := now, updated_at := now }
          auth_user
          ((form.tagList.zip tag_ids).map fun nt =>
            ({ id := nt.2, article_id := fid, name := nt.1,
               created_at := now, updated_at := now } : TagRow)) := rfl
    rw [hres] at hmem
    rcases mem_responseStrings_from _ _ _ _ hmem with hx | hx | hx
    · exact hart hx
    · obtain ⟨t, ht, hname⟩ := List.mem_map.mp hx
      obtain ⟨nt, hnt, hft⟩ := List.mem_map.mp ht
      obtain ⟨x, y⟩ := nt
      rw [← hft] at hname
      have hx2 : x = auth_user.password := hname
      exact htag (hx2 ▸ (List.of_mem_zip hnt).1)
    · exact hprof hx
  · intro st auth_user aid form r st' hcall hstored hf1 hf2 hf3 hf4 hprof hmem
    cases hu : updateArticleHandler st aid form with
    | ok p =>
      obtain ⟨a1, st1⟩ := p
      obtain ⟨art, hfind, hp1⟩ := updateArticleHandler_ok_shape st aid form (a1, st1) hu
      have ha1 : a1 = applyArticleChangeset art
          { slug := form.title.map convert_title_to_slug, title := form.title,
            description := form.description, body := form.body } := hp1
      simp only [updateArticleHandlerResponse, hu] at hcall
      injection hcall with h1
      have hr : r = singleArticleResponseFrom a1 auth_user [] :=
        (congrArg Prod.fst h1).symm
      subst hr
      rcases mem_responseStrings_from _ _ _ _ hmem with hx | hx | hx
      · rw [ha1] at hx
        rcases mem_articleStrings_applyChangeset art _ _ hx with h | h | h | h | h
        · exact hf1 h
        · exact hf2 h
        · exact hf3 h
        · exact hf4 h
        · exact hstored art (List.mem_of_find?_eq_some hfind) h
      · simp at hx
      · exact hprof hx
    | err e =>
      simp only [updateArticleHandlerResponse, hu] at hcall
      exact Outcome.noConfusion hcall
    | panic m =>
      simp only [updateArticleHandlerResponse, hu] at hcall
      exact Outcome.noConfusion hcall
  · intro st v _hv hA hT hU hmem
    simp only [multiResponseStrings, indexHandlerResponse,
      multipleArticlesResponseFrom] at hmem
    obtain ⟨resp, hresp, hmemr⟩ := List.mem_flatMap.mp hmem
    obtain ⟨it, hit, hresp_eq⟩ := List.mem_map.mp hresp
    obtain ⟨⟨a, u⟩, tag_list⟩ := it
    obtain ⟨ha, hu, ht⟩ := index_item_provenance st a u tag_list hit
    rw [← hresp_eq] at hmemr
    rcases mem_responseStrings_from a u tag_list _ hmemr with hx | hx | hx
    · exact hA a ha hx
    · obtain ⟨t, htm, hname⟩ := List.mem_map.mp hx
      exact hT t (ht t htm) hname.symm
    · exact hU u hu hx

/-- The stored article after the concrete update request was applied. -/
def updatedStoredArticle : ArticleRow :=
  { id := 9, author_id := 1, slug := str ("new-title"), title := str ("New Title!"),
    description := str ("about things"), body := str ("text"),
    created_at := 3, updated_at := 4 }

/-- Witness for C3: the three response-producing operations at concrete
inputs, with every hypothesis discharged by computation. -/
theorem C3_client_responses_never_contain_password_witness :
    aliceW.password ∉ responseStrings (createArticleHandler emptyState aliceW 9 5 [10]
      { title := str ("My Title"), description := str ("d"), body := str ("b"),
        tagList := [str ("rust")] }).1 ∧
    aliceW.password ∉
      responseStrings (singleArticleResponseFrom updatedStoredArticle aliceW []) ∧
    aliceW.password ∉ multiResponseStrings (indexHandlerResponse articleState) :=
  ⟨C3_client_responses_never_contain_password.1 emptyState aliceW 9 5 [10]
    { title := str ("My Title"), description := str ("d"), body := str ("b"),
      tagList := [str ("rust")] } (by decide) (by decide) (by decide),
   C3_client_responses_never_contain_password.2.1 articleState aliceW 9
    { title := some (str ("New Title!")), description := none, body := none }
    (singleArticleResponseFrom updatedStoredArticle aliceW [])
    { users := [aliceW], follows := [], articles := [updatedStoredArticle], tags := [] }
    (by decide) (by decide) (by decide) (by decide) (by decide) (by decide) (by decide),
   C3_client_responses_never_contain_password.2.2 articleState aliceW (by decide)
    (by decide) (by decide) (by decide)⟩

end RealWorld
